import Mathlib

/-!
Verification development for the ReelAutoScroll content script.

The repository holds two variants of the same content script:
* `src/unnamed/part_000` — version 1.3, with voice commands; its ended
  listener wraps the call in an arrow function that discards the event,
  and `scrollToNextReel` takes no argument and selects the current video
  by a visibility scan;
* `src/content.js` — version 1.2, without voice commands; its
  `scrollToNextReel(event)` uses `event.target` as the current video.

Geometry (bounding rectangles, scroll and client heights, the viewport
height) is embedded with exact rationals in place of JS doubles.  A DOM
rectangle is given by its `top` and its `height`, with
`bottom = top + height` as for `DOMRect`.  Division by a zero height,
`NaN` in JS, is the total rational division (`x / 0 = 0`); in both
semantics the comparison `visibility > maxVisibility` then fails, so
the scan behaves identically.
-/

namespace ReelAutoScroll

/-- A DOM element as far as the script observes it: its aria-label. -/
structure Element where
  ariaLabel : Option String
deriving DecidableEq

/-- An ancestor element as inspected by the container walk:
its scrollHeight and clientHeight. -/
structure Container where
  scrollHeight : ℚ
  clientHeight : ℚ
deriving DecidableEq

/-- A bounding client rectangle, determined by top and height. -/
structure Rect where
  top : ℚ
  height : ℚ
deriving DecidableEq

/-- The bottom of a rectangle, as in DOMRect: top plus height. -/
def Rect.bottom (r : Rect) : ℚ := r.top + r.height

/-- A video element: its bounding rectangle and its chain of ancestors
(`parentElement`, nearest first). -/
structure Video where
  rect : Rect
  ancestors : List Container
deriving DecidableEq

/-- The slice of DOM state read by `scrollToNextReel`: all elements in
document order (for the aria-label query), all video elements in
document order, and `window.innerHeight`. -/
structure Dom where
  elements : List Element
  videos : List Video
  innerHeight : ℚ
deriving DecidableEq

/-- The side effect `scrollToNextReel` performs on the page. -/
inductive Action where
  | clickNext (e : Element)
  | scrollContainer (c : Container) (amount : ℚ)
  | scrollWindow (amount : ℚ)
  | noScroll
deriving DecidableEq

/-- Whether an element matches the selector
`[aria-label*="Next"]`: its aria-label holds "Next" as a
case-sensitive substring. -/
def ariaLabelMatchesNext (e : Element) : Bool :=
  match e.ariaLabel with
  | none => false
  | some s => decide (("Next").toList <:+: s.toList)

/-- `document.querySelector(NEXT_BUTTON_SELECTOR)`: the first element in
document order whose aria-label holds "Next". -/
def querySelectorNext (elements : List Element) : Option Element :=
  elements.find? ariaLabelMatchesNext

/-- `Math.max(0, Math.min(rect.bottom, window.innerHeight) - Math.max(rect.top, 0))`. -/
def visibleHeight (innerHeight : ℚ) (r : Rect) : ℚ :=
  max 0 (min r.bottom innerHeight - max r.top 0)

/-- `visibleHeight / rect.height`; total rational division stands in for
the JS double division. -/
def visibility (innerHeight : ℚ) (v : Video) : ℚ :=
  visibleHeight innerHeight v.rect / v.rect.height

/-- One iteration of the visibility scan: the accumulator is
`(currentVideo, maxVisibility)` and is replaced only when the visibility
is strictly greater than the running maximum. -/
def scanStep (innerHeight : ℚ) (acc : Option Video × ℚ) (v : Video) :
    Option Video × ℚ :=
  if acc.2 < visibility innerHeight v then (some v, visibility innerHeight v)
  else acc

/-- The visibility scan of `scrollToNextReel` (v1.3): starting from
`currentVideo = null`, `maxVisibility = 0`, fold over all videos. -/
def findCurrentVideo (innerHeight : ℚ) (videos : List Video) : Option Video :=
  (videos.foldl (scanStep innerHeight) (none, 0)).1

/-- `parent.scrollHeight > parent.clientHeight + 50`. -/
def isScrollable (c : Container) : Bool :=
  decide (c.clientHeight + 50 < c.scrollHeight)

/-- The ancestor walk: up to `fuel` levels (15 in the source), return the
first ancestor whose scrollHeight exceeds its clientHeight by more
than 50. -/
def findScrollableContainer : Nat → List Container → Option Container
  | 0, _ => none
  | _ + 1, [] => none
  | fuel + 1, c :: rest =>
      if isScrollable c then some c
      else findScrollableContainer fuel rest

/-- `scrollToNextReel` of v1.3 (`src/unnamed/part_000`): click the Next
button if present; else scan for the most visible video; if none, scroll
the window by one viewport height; else walk its ancestors and scroll the
found container by its own clientHeight, or do nothing when no container
qualifies. -/
def scrollToNextReel (d : Dom) : Action :=
  match querySelectorNext d.elements with
  | some e => Action.clickNext e
  | none =>
    match findCurrentVideo d.innerHeight d.videos with
    | none => Action.scrollWindow d.innerHeight
    | some current =>
      match findScrollableContainer 15 current.ancestors with
      | some c => Action.scrollContainer c c.clientHeight
      | none => Action.noScroll

/-- `scrollToNextReel(event)` of v1.2 (`src/content.js`): click the Next
button if present; else take `event.target` as the current video (return
doing nothing when absent); walk its ancestors and scroll the found
container by its clientHeight, falling back to a window scroll of one
viewport height when no container qualifies. -/
def scrollToNextReelV12 (d : Dom) (eventTarget : Option Video) : Action :=
  match querySelectorNext d.elements with
  | some e => Action.clickNext e
  | none =>
    match eventTarget with
    | none => Action.noScroll
    | some current =>
      match findScrollableContainer 15 current.ancestors with
      | some c => Action.scrollContainer c c.clientHeight
      | none => Action.scrollWindow d.innerHeight

/-- The ended listener of v1.3: the arrow wrapper discards the event, so
the ended video plays no role. -/
def endedHandler (d : Dom) (_endedVideo : Video) : Action :=
  scrollToNextReel d

/-- The ended listener of v1.2: `scrollToNextReel` is installed directly,
so the ended video arrives as `event.target`. -/
def endedHandlerV12 (d : Dom) (endedVideo : Video) : Action :=
  scrollToNextReelV12 d (some endedVideo)

/-! ### Event wiring, voice commands and initialization (v1.3) -/

/-- One alternative of a speech recognition result: its transcript. -/
structure SpeechAlt where
  transcript : String
deriving DecidableEq

/-- JS `toLowerCase()`, embedded over the character list. -/
def jsToLowerCase (s : String) : String :=
  String.mk (s.data.map Char.toLower)

/-- JS `trim()`: drop surrounding whitespace, embedded over the
character list. -/
def jsTrim (s : String) : String :=
  String.mk
    (((s.data.dropWhile Char.isWhitespace).reverse.dropWhile
      Char.isWhitespace).reverse)

/-- `transcript.trim().toLowerCase()`. -/
def normalizeCommand (s : String) : String := jsToLowerCase (jsTrim s)

/-- The `onresult` handler of `setupVoiceCommands`: take the last result
of the event, its first alternative, trim and lowercase the transcript,
and run `scrollToNextReel` exactly when it equals "next"; any other
utterance produces no action. -/
def onResultHandler (d : Dom) (results : List (List SpeechAlt)) :
    Option Action :=
  match results.getLast? with
  | none => none
  | some alts =>
    match alts.head? with
    | none => none
    | some alt =>
      if normalizeCommand alt.transcript = "next" then
        some (scrollToNextReel d)
      else none

/-- The listener-relevant state of a video element: the
`dataset.autoScrollListenerAttached` marker (a DOM string attribute,
absent before the first wiring) and the number of attached ended
listeners. -/
structure VideoState where
  autoScrollListenerAttached : Option String
  endedListeners : Nat
deriving DecidableEq

/-- JS truthiness of a possibly-absent DOM string: `undefined` and the
empty string are falsy, every other string is truthy. -/
def jsTruthy : Option String → Bool
  | none => false
  | some s => decide (s ≠ "")

/-- `addListenerToVideo`: do nothing when the marker is truthy, otherwise
attach one ended listener and set the marker to the string "true". -/
def addListenerToVideo (s : VideoState) : VideoState :=
  if jsTruthy s.autoScrollListenerAttached then s
  else ⟨some "true", s.endedListeners + 1⟩

/-- The observable effect of a recognition lifecycle handler: whether it
calls `recognition.start()` again, and the message it logs. -/
structure HandlerEffect where
  restart : Bool
  log : String
deriving DecidableEq

/-- The `onend` handler: log and always restart the session. -/
def onEndHandler : HandlerEffect :=
  ⟨true, "Speech recognition service ended. Restarting..."⟩

/-- The `onerror` handler: never restarts; logs a dedicated message when
the error code is "not-allowed" and a generic one otherwise. -/
def onErrorHandler (errCode : String) : HandlerEffect :=
  if errCode = "not-allowed" then
    ⟨false, "Microphone access denied. Voice commands will not work."⟩
  else
    ⟨false, "Speech recognition error:"⟩

/-- The host capabilities `setupVoiceCommands` depends on: whether a
speech recognition constructor exists, and whether
`recognition.start()` throws synchronously. -/
structure VoiceEnv where
  speechRecognitionAvailable : Bool
  startThrows : Bool
deriving DecidableEq

/-- The observable outcome of `setupVoiceCommands`. -/
structure VoiceSetupResult where
  sessionCreated : Bool
  startAttempted : Bool
  exceptionPropagated : Bool
  logs : List String
deriving DecidableEq

/-- `setupVoiceCommands`: without a recognition constructor, log one
notice and return before creating a session; otherwise create the
session and call `start()` inside try/catch, so a synchronous throw is
logged and never propagated. -/
def setupVoiceCommands (env : VoiceEnv) : VoiceSetupResult :=
  if !env.speechRecognitionAvailable then
    ⟨false, false, false, ["Speech Recognition API not supported in this browser."]⟩
  else if env.startThrows then
    ⟨true, true, false, ["Could not start voice recognition:"]⟩
  else
    ⟨true, true, false, ["Voice recognition started. Say next to scroll."]⟩

/-- The observable outcome of the script initialization of v1.3. -/
structure InitResult where
  observerRegistered : Bool
  wiredVideos : List VideoState
  voice : VoiceSetupResult
deriving DecidableEq

/-- Script initialization of v1.3 (`src/unnamed/part_000`, bottom of the
file): register the mutation observer on the body, wire every video
already on the page, then set up voice commands. -/
def initContentScript (env : VoiceEnv) (videos : List VideoState) :
    InitResult :=
  ⟨true, videos.map addListenerToVideo, setupVoiceCommands env⟩

/-! ### Concrete page states used as test inputs -/

/-- A fully visible video (top 0, height 10, viewport 100) with no
ancestors at all. -/
def vid1 : Video := ⟨⟨0, 10⟩, []⟩

/-- A page with no Next-labeled element and only `vid1`. -/
def noAncestorDom : Dom := ⟨[], [vid1], 100⟩

/-- A qualifying scrollable container: 300 + 50 < 1000. -/
def contA : Container := ⟨1000, 300⟩

/-- A second, distinct qualifying scrollable container. -/
def contB : Container := ⟨1000, 400⟩

/-- A non-qualifying container: 90 + 50 is not below 100. -/
def contNear : Container := ⟨100, 90⟩

/-- A half-visible video (top -5, height 10) whose parent is `contA`. -/
def endedVid : Video := ⟨⟨-5, 10⟩, [contA]⟩

/-- A fully visible video (top 10, height 10) whose parent is `contB`. -/
def mostVisibleVid : Video := ⟨⟨10, 10⟩, [contB]⟩

/-- A page with both videos above and no Next-labeled element. -/
def eventDom : Dom := ⟨[], [endedVid, mostVisibleVid], 100⟩

/-- A fully visible video whose nearest ancestor does not qualify and
whose second ancestor does. -/
def stackVid : Video := ⟨⟨0, 10⟩, [contNear, contA]⟩

/-- A page with no Next-labeled element and only `stackVid`. -/
def stackDom : Dom := ⟨[], [stackVid], 100⟩

/-- A video as visible as `vid1` but distinct from it (ties in the scan). -/
def tieVid : Video := ⟨⟨0, 10⟩, [contA]⟩

/-- A video whose bounding rectangle has height zero. -/
def zeroHeightVid : Video := ⟨⟨3, 0⟩, []⟩

/-! ### Evaluation lemmas on the concrete inputs -/

theorem visibility_vid1 : visibility 100 vid1 = 1 := by
  simp [visibility, visibleHeight, Rect.bottom, vid1]
  norm_num [min_def, max_def]

theorem visibility_endedVid : visibility 100 endedVid = 1 / 2 := by
  simp [visibility, visibleHeight, Rect.bottom, endedVid]
  norm_num [min_def, max_def]

theorem visibility_mostVisibleVid : visibility 100 mostVisibleVid = 1 := by
  simp [visibility, visibleHeight, Rect.bottom, mostVisibleVid]
  norm_num [min_def, max_def]

theorem visibility_stackVid : visibility 100 stackVid = 1 := by
  simp [visibility, visibleHeight, Rect.bottom, stackVid]
  norm_num [min_def, max_def]

theorem visibility_tieVid : visibility 100 tieVid = 1 := by
  simp [visibility, visibleHeight, Rect.bottom, tieVid]
  norm_num [min_def, max_def]

theorem isScrollable_contA : isScrollable contA = true := by
  simp only [isScrollable, contA, decide_eq_true_eq]
  norm_num

theorem isScrollable_contB : isScrollable contB = true := by
  simp only [isScrollable, contB, decide_eq_true_eq]
  norm_num

theorem isScrollable_contNear : isScrollable contNear = false := by
  simp only [isScrollable, contNear, decide_eq_false_iff_not]
  norm_num

theorem findCurrentVideo_vid1 : findCurrentVideo 100 [vid1] = some vid1 := by
  simp [findCurrentVideo, scanStep, visibility_vid1]

theorem findCurrentVideo_eventDom :
    findCurrentVideo 100 [endedVid, mostVisibleVid] = some mostVisibleVid := by
  norm_num [findCurrentVideo, scanStep, visibility_endedVid,
    visibility_mostVisibleVid]

theorem findCurrentVideo_stackVid :
    findCurrentVideo 100 [stackVid] = some stackVid := by
  simp [findCurrentVideo, scanStep, visibility_stackVid]

theorem findCurrentVideo_tie :
    findCurrentVideo 100 [vid1, tieVid] = some vid1 := by
  simp [findCurrentVideo, scanStep, visibility_vid1, visibility_tieVid]

example : scrollToNextReel ⟨[], [], 100⟩ = Action.scrollWindow 100 := by decide

example :
    scrollToNextReel ⟨[⟨some "Go to Next reel"⟩], [], 100⟩ =
      Action.clickNext ⟨some "Go to Next reel"⟩ := by decide

example : scrollToNextReel noAncestorDom = Action.noScroll := by
  simp only [scrollToNextReel, noAncestorDom, querySelectorNext, List.find?]
  rw [findCurrentVideo_vid1]
  simp [findScrollableContainer, vid1]

example :
    scrollToNextReel stackDom = Action.scrollContainer contA 300 := by
  simp only [scrollToNextReel, stackDom, querySelectorNext, List.find?]
  rw [findCurrentVideo_stackVid]
  simp only [stackVid, findScrollableContainer, isScrollable_contA,
    isScrollable_contNear, Bool.false_eq_true, if_false, if_true]
  simp [contA]

/-! ### Helper lemmas about the advancement selector -/

/-- Characterization of the visibility scan fold: either no video ever
strictly exceeded the running maximum of the accumulator and the
accumulator is returned unchanged, or the result is the last video that
strictly exceeded every visibility before it, that is, the first video
attaining the overall maximum. -/
theorem scanFold_spec (h : ℚ) (vs : List Video) :
    ∀ acc : Option Video × ℚ,
      (vs.foldl (scanStep h) acc = acc ∧ ∀ v ∈ vs, visibility h v ≤ acc.2) ∨
      (∃ pre v post, vs = pre ++ v :: post ∧
        vs.foldl (scanStep h) acc = (some v, visibility h v) ∧
        acc.2 < visibility h v ∧
        (∀ u ∈ pre, visibility h u < visibility h v) ∧
        (∀ u ∈ post, visibility h u ≤ visibility h v)) := by
  induction vs with
  | nil => intro acc; exact Or.inl ⟨rfl, by simp⟩
  | cons w rest ih =>
    intro acc
    rw [List.foldl_cons]
    by_cases hw : acc.2 < visibility h w
    · have hstep : scanStep h acc w = (some w, visibility h w) := by
        simp [scanStep, hw]
      rw [hstep]
      rcases ih (some w, visibility h w) with ⟨heq, hall⟩ |
        ⟨pre, v, post, hsplit, heq, hlt, hpre, hpost⟩
      · refine Or.inr ⟨[], w, rest, by simp, heq, hw, by simp, ?_⟩
        intro u hu
        exact hall u hu
      · refine Or.inr ⟨w :: pre, v, post, by simp [hsplit], heq,
          lt_trans hw hlt, ?_, hpost⟩
        intro u hu
        rcases List.mem_cons.mp hu with rfl | hu
        · exact hlt
        · exact hpre u hu
    · have hstep : scanStep h acc w = acc := by simp [scanStep, hw]
      rw [hstep]
      rcases ih acc with ⟨heq, hall⟩ |
        ⟨pre, v, post, hsplit, heq, hlt, hpre, hpost⟩
      · refine Or.inl ⟨heq, ?_⟩
        intro u hu
        rcases List.mem_cons.mp hu with rfl | hu
        · exact le_of_not_lt hw
        · exact hall u hu
      · refine Or.inr ⟨w :: pre, v, post, by simp [hsplit], heq, hlt, ?_, hpost⟩
        intro u hu
        rcases List.mem_cons.mp hu with rfl | hu
        · exact lt_of_le_of_lt (le_of_not_lt hw) hlt
        · exact hpre u hu

/-- When the scan selects a video, that video splits the list, has
strictly positive visibility, strictly exceeds every video before it, and
is maximal over the whole list. -/
theorem findCurrentVideo_eq_some (h : ℚ) (vs : List Video) (v : Video)
    (hv : findCurrentVideo h vs = some v) :
    ∃ pre post, vs = pre ++ v :: post ∧ 0 < visibility h v ∧
      (∀ u ∈ pre, visibility h u < visibility h v) ∧
      (∀ u ∈ vs, visibility h u ≤ visibility h v) := by
  rcases scanFold_spec h vs (none, 0) with ⟨heq, _⟩ |
    ⟨pre, w, post, hsplit, heq, hlt, hpre, hpost⟩
  · rw [findCurrentVideo, heq] at hv
    exact absurd hv (by simp)
  · rw [findCurrentVideo, heq] at hv
    have hwv : w = v := by simpa using hv
    subst hwv
    refine ⟨pre, post, hsplit, hlt, hpre, ?_⟩
    intro u hu
    rw [hsplit] at hu
    rcases List.mem_append.mp hu with hu | hu
    · exact le_of_lt (hpre u hu)
    · rcases List.mem_cons.mp hu with rfl | hu
      · exact le_refl _
      · exact hpost u hu

/-- When every video has nonpositive visibility (in particular when the
list is empty), the scan selects no current video. -/
theorem findCurrentVideo_eq_none (h : ℚ) (vs : List Video)
    (hall : ∀ v ∈ vs, visibility h v ≤ 0) :
    findCurrentVideo h vs = none := by
  rcases scanFold_spec h vs (none, 0) with ⟨heq, _⟩ |
    ⟨pre, w, post, hsplit, _, hlt, _, _⟩
  · rw [findCurrentVideo, heq]
  · exfalso
    have hw : w ∈ vs := by
      rw [hsplit]
      exact List.mem_append_right _ (List.mem_cons_self _ _)
    exact absurd hlt (not_lt.mpr (hall w hw))

/-- Characterization of the ancestor walk: either there is no qualifying
ancestor within the inspected depth and the walk returns nothing, or it
returns the nearest qualifying ancestor (every strictly closer ancestor
fails the scrollability test). -/
theorem findScrollableContainer_spec :
    ∀ (fuel : Nat) (l : List Container),
      (findScrollableContainer fuel l = none ∧
        ∀ i < fuel, ∀ a, l[i]? = some a → isScrollable a = false) ∨
      (∃ j c, findScrollableContainer fuel l = some c ∧ j < fuel ∧
        l[j]? = some c ∧ isScrollable c = true ∧
        ∀ k < j, ∀ b, l[k]? = some b → isScrollable b = false) := by
  intro fuel
  induction fuel with
  | zero =>
    intro l
    refine Or.inl ⟨rfl, ?_⟩
    intro i hi
    exact absurd hi (Nat.not_lt_zero i)
  | succ n ih =>
    intro l
    cases l with
    | nil =>
      refine Or.inl ⟨rfl, ?_⟩
      intro i _ a ha
      simp at ha
    | cons c rest =>
      by_cases hc : isScrollable c = true
      · exact Or.inr ⟨0, c, by simp [findScrollableContainer, hc],
          Nat.succ_pos n, by simp, hc, fun k hk => absurd hk (Nat.not_lt_zero k)⟩
      · have hc' : isScrollable c = false := by
          revert hc
          cases isScrollable c <;> simp
        have hstep : findScrollableContainer (n + 1) (c :: rest) =
            findScrollableContainer n rest := by
          simp [findScrollableContainer, hc']
        rcases ih rest with ⟨heq, hall⟩ | ⟨j, c₂, heq, hj, hget, hs, hmin⟩
        · refine Or.inl ⟨by rw [hstep, heq], ?_⟩
          intro i hi a ha
          cases i with
          | zero =>
            have : c = a := by simpa using ha
            exact this ▸ hc'
          | succ k =>
            rw [List.getElem?_cons_succ] at ha
            exact hall k (by omega) a ha
        · refine Or.inr ⟨j + 1, c₂, by rw [hstep]; exact heq, by omega,
            by simpa using hget, hs, ?_⟩
          intro k hk b hb
          cases k with
          | zero =>
            have : c = b := by simpa using hb
            exact this ▸ hc'
          | succ m =>
            rw [List.getElem?_cons_succ] at hb
            exact hmin m (by omega) b hb

/-- When no element in document order matches the Next selector, the
query returns nothing. -/
theorem querySelectorNext_eq_none (elems : List Element)
    (hall : ∀ e ∈ elems, ariaLabelMatchesNext e = false) :
    querySelectorNext elems = none :=
  List.find?_eq_none.mpr (fun e he => by simp [hall e he])

/-- When some element matches the Next selector, the query returns a
matching element of the document. -/
theorem querySelectorNext_eq_some (elems : List Element) (e : Element)
    (he : e ∈ elems) (hm : ariaLabelMatchesNext e = true) :
    ∃ e₂, querySelectorNext elems = some e₂ ∧ e₂ ∈ elems ∧
      ariaLabelMatchesNext e₂ = true := by
  have hsome : (elems.find? ariaLabelMatchesNext).isSome :=
    List.find?_isSome.mpr ⟨e, he, hm⟩
  obtain ⟨e₂, h₂⟩ := Option.isSome_iff_exists.mp hsome
  exact ⟨e₂, h₂, List.mem_of_find?_eq_some h₂, List.find?_some h₂⟩

/-- A video whose marker is truthy is left untouched by the wiring
function. -/
theorem addListenerToVideo_marked (s : VideoState)
    (hs : jsTruthy s.autoScrollListenerAttached = true) :
    addListenerToVideo s = s := by
  simp [addListenerToVideo, hs]

/-- Iterating the wiring function on a video whose marker is truthy
changes nothing. -/
theorem addListenerToVideo_iterate_marked (n : Nat) (s : VideoState)
    (hs : jsTruthy s.autoScrollListenerAttached = true) :
    addListenerToVideo^[n] s = s := by
  induction n with
  | zero => rfl
  | succ m ih =>
    rw [Function.iterate_succ_apply, addListenerToVideo_marked s hs]
    exact ih

/-! ### The claims -/

/-- Claim C2: when some element of the document has an accessible label
holding "Next" as a case-sensitive substring, `advance()` clicks the
queried matching element and performs no scroll of any kind, in v1.3 as
in v1.2; the later methods are not attempted. -/
theorem C2_next_button_clicked (d : Dom) (e : Element)
    (he : e ∈ d.elements) (hm : ariaLabelMatchesNext e = true) :
    ∃ e₂, e₂ ∈ d.elements ∧ ariaLabelMatchesNext e₂ = true ∧
      scrollToNextReel d = Action.clickNext e₂ ∧
      (∀ t, scrollToNextReelV12 d t = Action.clickNext e₂) ∧
      (∀ c q, scrollToNextReel d ≠ Action.scrollContainer c q) ∧
      (∀ q, scrollToNextReel d ≠ Action.scrollWindow q) := by
  obtain ⟨e₂, hq, hmem, hm₂⟩ := querySelectorNext_eq_some d.elements e he hm
  refine ⟨e₂, hmem, hm₂, ?_, ?_, ?_, ?_⟩
  · simp [scrollToNextReel, hq]
  · intro t
    simp [scrollToNextReelV12, hq]
  · intro c q
    simp [scrollToNextReel, hq]
  · intro q
    simp [scrollToNextReel, hq]

/-- Witness for C2 on a concrete page holding one Next-labeled element. -/
theorem C2_witness :
    ∃ e₂, e₂ ∈ (⟨[⟨some "Go to Next reel"⟩], [], 100⟩ : Dom).elements ∧
      ariaLabelMatchesNext e₂ = true ∧
      scrollToNextReel ⟨[⟨some "Go to Next reel"⟩], [], 100⟩ =
        Action.clickNext e₂ ∧
      (∀ t, scrollToNextReelV12 ⟨[⟨some "Go to Next reel"⟩], [], 100⟩ t =
        Action.clickNext e₂) ∧
      (∀ c q, scrollToNextReel ⟨[⟨some "Go to Next reel"⟩], [], 100⟩ ≠
        Action.scrollContainer c q) ∧
      (∀ q, scrollToNextReel ⟨[⟨some "Go to Next reel"⟩], [], 100⟩ ≠
        Action.scrollWindow q) :=
  C2_next_button_clicked ⟨[⟨some "Go to Next reel"⟩], [], 100⟩
    ⟨some "Go to Next reel"⟩ (by simp) (by decide)

/-- Claim C3: with no Next-labeled element, a selected current video, and
a qualifying ancestor within fifteen levels, `advance()` scrolls the
nearest qualifying ancestor by exactly its own clientHeight (smooth
scrolling in the source) and does not scroll the window; the v1.2
function does the same from an event-target video. -/
theorem C3_container_scrolled (d : Dom) (v : Video) (i : Nat) (a : Container)
    (hbtn : ∀ e ∈ d.elements, ariaLabelMatchesNext e = false)
    (hcur : findCurrentVideo d.innerHeight d.videos = some v)
    (hi : i < 15) (ha : v.ancestors[i]? = some a)
    (hs : isScrollable a = true) :
    ∃ c j, findScrollableContainer 15 v.ancestors = some c ∧
      j < 15 ∧ v.ancestors[j]? = some c ∧ isScrollable c = true ∧ j ≤ i ∧
      (∀ k < j, ∀ b, v.ancestors[k]? = some b → isScrollable b = false) ∧
      scrollToNextReel d = Action.scrollContainer c c.clientHeight ∧
      scrollToNextReelV12 d (some v) = Action.scrollContainer c c.clientHeight ∧
      (∀ q, scrollToNextReel d ≠ Action.scrollWindow q) := by
  have hq := querySelectorNext_eq_none d.elements hbtn
  rcases findScrollableContainer_spec 15 v.ancestors with ⟨_, hall⟩ |
    ⟨j, c, heq, hj, hget, hsc, hmin⟩
  · have hfa := hall i hi a ha
    rw [hfa] at hs
    exact Bool.noConfusion hs
  · have hji : j ≤ i := by
      by_contra hji
      push_neg at hji
      have hfa := hmin i hji a ha
      rw [hfa] at hs
      exact Bool.noConfusion hs
    refine ⟨c, j, heq, hj, hget, hsc, hji, hmin, ?_, ?_, ?_⟩
    · simp [scrollToNextReel, hq, hcur, heq]
    · simp [scrollToNextReelV12, hq, heq]
    · intro q
      simp [scrollToNextReel, hq, hcur, heq]

/-- Witness for C3 on a concrete page: the nearest ancestor fails the
test and the second one, at depth index one, qualifies and is scrolled
by its clientHeight of 300. -/
theorem C3_witness :
    ∃ c j, findScrollableContainer 15 stackVid.ancestors = some c ∧
      j < 15 ∧ stackVid.ancestors[j]? = some c ∧ isScrollable c = true ∧
      j ≤ 1 ∧
      (∀ k < j, ∀ b, stackVid.ancestors[k]? = some b →
        isScrollable b = false) ∧
      scrollToNextReel stackDom = Action.scrollContainer c c.clientHeight ∧
      scrollToNextReelV12 stackDom (some stackVid) =
        Action.scrollContainer c c.clientHeight ∧
      (∀ q, scrollToNextReel stackDom ≠ Action.scrollWindow q) :=
  C3_container_scrolled stackDom stackVid 1 contA (by simp [stackDom])
    (by simp only [stackDom]; exact findCurrentVideo_stackVid)
    (by omega) (by simp [stackVid]) isScrollable_contA

/-- Claim C5: a video selected by the visibility scan attains the maximum
visibility ratio, every video encountered before it has strictly smaller
visibility (so the first seen wins on equality), its visibility is
strictly positive; with zero videos or all-zero visibility no video is
selected, and `advance()` then goes straight to the window-scroll
fallback. -/
theorem C5_visibility_scan (h : ℚ) (vs : List Video) :
    (∀ v, findCurrentVideo h vs = some v →
        ∃ pre post, vs = pre ++ v :: post ∧ 0 < visibility h v ∧
          (∀ u ∈ pre, visibility h u < visibility h v) ∧
          (∀ u ∈ vs, visibility h u ≤ visibility h v)) ∧
    findCurrentVideo h ([] : List Video) = none ∧
    ((∀ v ∈ vs, visibility h v = 0) → findCurrentVideo h vs = none) ∧
    (∀ d : Dom, (∀ e ∈ d.elements, ariaLabelMatchesNext e = false) →
        findCurrentVideo d.innerHeight d.videos = none →
        scrollToNextReel d = Action.scrollWindow d.innerHeight) := by
  refine ⟨fun v hv => findCurrentVideo_eq_some h vs v hv, rfl, ?_, ?_⟩
  · intro hall
    exact findCurrentVideo_eq_none h vs (fun v hv => le_of_eq (hall v hv))
  · intro d hbtn hnone
    simp [scrollToNextReel, querySelectorNext_eq_none d.elements hbtn, hnone]

/-- Witness for C5 on a concrete tie: `vid1` and `tieVid` are equally
visible and the scan keeps the first one. -/
theorem C5_witness :
    ∃ pre post, [vid1, tieVid] = pre ++ vid1 :: post ∧
      0 < visibility 100 vid1 ∧
      (∀ u ∈ pre, visibility 100 u < visibility 100 vid1) ∧
      (∀ u ∈ [vid1, tieVid], visibility 100 u ≤ visibility 100 vid1) :=
  (C5_visibility_scan 100 [vid1, tieVid]).1 vid1 findCurrentVideo_tie

/-- Claim C10: a video whose bounding rectangle has height zero has
visible height zero and visibility ratio zero (total division by the
zero height), so the strict comparison against the running maximum never
holds and the scan never selects it. -/
theorem C10_zero_height_never_selected (h : ℚ) (v : Video)
    (hzero : v.rect.height = 0) :
    visibleHeight h v.rect = 0 ∧ visibility h v = 0 ∧
      ∀ vs : List Video, findCurrentVideo h vs ≠ some v := by
  have hb : v.rect.bottom = v.rect.top := by
    simp [Rect.bottom, hzero]
  have h1 : min v.rect.top h - max v.rect.top 0 ≤ 0 := by
    have h2 := min_le_left v.rect.top h
    have h3 := le_max_left v.rect.top (0 : ℚ)
    linarith
  have hvh : visibleHeight h v.rect = 0 := by
    simp only [visibleHeight, hb]
    exact max_eq_left h1
  have hvis : visibility h v = 0 := by
    simp only [visibility, hzero, div_zero]
  refine ⟨hvh, hvis, ?_⟩
  intro vs hsel
  obtain ⟨_, _, _, hpos, _⟩ := findCurrentVideo_eq_some h vs v hsel
  rw [hvis] at hpos
  exact lt_irrefl 0 hpos

/-- Witness for C10 on a concrete zero-height video. -/
theorem C10_witness :
    visibleHeight 100 zeroHeightVid.rect = 0 ∧
    visibility 100 zeroHeightVid = 0 ∧
    findCurrentVideo 100 [zeroHeightVid] ≠ some zeroHeightVid := by
  have h := C10_zero_height_never_selected 100 zeroHeightVid rfl
  exact ⟨h.1, h.2.1, h.2.2 [zeroHeightVid]⟩

/-- Counterexample to claim C1 as stated: on a page with no Next-labeled
element where the scan does select a current video (`vid1`, fully
visible) but that video has no qualifying scrollable ancestor within
fifteen levels, the v1.3 `advance()` performs no scroll at all instead
of scrolling the window by one viewport height. -/
theorem C1_counterexample :
    scrollToNextReel noAncestorDom = Action.noScroll ∧
    scrollToNextReel noAncestorDom ≠
      Action.scrollWindow noAncestorDom.innerHeight := by
  have heval : scrollToNextReel noAncestorDom = Action.noScroll := by
    simp only [scrollToNextReel, noAncestorDom, querySelectorNext, List.find?]
    rw [findCurrentVideo_vid1]
    simp [findScrollableContainer, vid1]
  refine ⟨heval, ?_⟩
  rw [heval]
  intro hcontra
  exact Action.noConfusion hcontra

/-- Claim C1 as amended: in v1.3 the window fallback fires exactly when
the visibility scan selects no current video; when a current video is
selected but no ancestor within fifteen levels qualifies, v1.3 only logs
and performs no scroll. In v1.2 the window fallback does fire when no
ancestor of the event-target video qualifies. -/
theorem C1_amended_fallback :
    (∀ d : Dom, (∀ e ∈ d.elements, ariaLabelMatchesNext e = false) →
        findCurrentVideo d.innerHeight d.videos = none →
        scrollToNextReel d = Action.scrollWindow d.innerHeight) ∧
    (∀ (d : Dom) (v : Video),
        (∀ e ∈ d.elements, ariaLabelMatchesNext e = false) →
        findCurrentVideo d.innerHeight d.videos = some v →
        findScrollableContainer 15 v.ancestors = none →
        scrollToNextReel d = Action.noScroll) ∧
    (∀ (d : Dom) (v : Video),
        (∀ e ∈ d.elements, ariaLabelMatchesNext e = false) →
        findScrollableContainer 15 v.ancestors = none →
        scrollToNextReelV12 d (some v) =
          Action.scrollWindow d.innerHeight) := by
  refine ⟨?_, ?_, ?_⟩
  · intro d hbtn hnone
    simp [scrollToNextReel, querySelectorNext_eq_none d.elements hbtn, hnone]
  · intro d v hbtn hcur hfind
    simp [scrollToNextReel, querySelectorNext_eq_none d.elements hbtn,
      hcur, hfind]
  · intro d v hbtn hfind
    simp [scrollToNextReelV12, querySelectorNext_eq_none d.elements hbtn,
      hfind]

/-- Witness for the amended C1, on concrete pages: window scroll with no
video at all, no scroll in v1.3 with a video but no qualifying ancestor,
window scroll in v1.2 in that same situation. -/
theorem C1_amended_witness :
    scrollToNextReel ⟨[], [], 50⟩ = Action.scrollWindow 50 ∧
    scrollToNextReel noAncestorDom = Action.noScroll ∧
    scrollToNextReelV12 noAncestorDom (some vid1) =
      Action.scrollWindow 100 := by
  refine ⟨C1_amended_fallback.1 ⟨[], [], 50⟩ (by simp) rfl, ?_, ?_⟩
  · exact C1_amended_fallback.2.1 noAncestorDom vid1 (by simp [noAncestorDom])
      (by simp only [noAncestorDom]; exact findCurrentVideo_vid1)
      (by simp [vid1, findScrollableContainer])
  · exact C1_amended_fallback.2.2 noAncestorDom vid1 (by simp [noAncestorDom])
      (by simp [vid1, findScrollableContainer])

/-- Counterexample to claim C4 as stated: in v1.3 the ended listener
discards the event, so on `eventDom` the ancestor search starts from the
most visible video (`mostVisibleVid`, parent `contB`) instead of the
video that ended (`endedVid`, parent `contA`): the handler scrolls
`contB`, not `contA`. -/
theorem C4_counterexample :
    endedHandler eventDom endedVid =
      Action.scrollContainer contB contB.clientHeight ∧
    endedHandler eventDom endedVid ≠
      Action.scrollContainer contA contA.clientHeight := by
  have heval : endedHandler eventDom endedVid =
      Action.scrollContainer contB contB.clientHeight := by
    simp only [endedHandler, scrollToNextReel, eventDom, querySelectorNext,
      List.find?]
    rw [findCurrentVideo_eventDom]
    simp only [mostVisibleVid, findScrollableContainer, isScrollable_contB,
      if_true]
  refine ⟨heval, ?_⟩
  rw [heval]
  intro hcontra
  injection hcontra with h1 h2
  simp only [contA, contB, Container.mk.injEq] at h1
  norm_num at h1

/-- Claim C4 as amended: in v1.2 the current video for the ancestor
search is the event target, the video that just ended; in v1.3 the
arrow wrapper discards the event, so the handler behaves exactly as the
argument-free `scrollToNextReel`, whose current video comes from the
visibility scan even for a video-end trigger. -/
theorem C4_amended_event_discarded :
    (∀ (d : Dom) (v : Video), endedHandler d v = scrollToNextReel d) ∧
    (∀ (d : Dom) (v : Video) (c : Container),
        (∀ e ∈ d.elements, ariaLabelMatchesNext e = false) →
        findScrollableContainer 15 v.ancestors = some c →
        endedHandlerV12 d v = Action.scrollContainer c c.clientHeight) := by
  refine ⟨fun d v => rfl, ?_⟩
  intro d v c hbtn hfind
  simp [endedHandlerV12, scrollToNextReelV12,
    querySelectorNext_eq_none d.elements hbtn, hfind]

/-- Witness for the amended C4: in v1.2, the ended video `endedVid` is
the search start, so its parent `contA` is the scrolled container, on
the very page of the counterexample. -/
theorem C4_amended_witness :
    endedHandler eventDom endedVid = scrollToNextReel eventDom ∧
    endedHandlerV12 eventDom endedVid =
      Action.scrollContainer contA contA.clientHeight := by
  refine ⟨C4_amended_event_discarded.1 eventDom endedVid, ?_⟩
  exact C4_amended_event_discarded.2 eventDom endedVid contA
    (by simp [eventDom])
    (by simp only [endedVid, findScrollableContainer, isScrollable_contA,
      if_true])

/-- Claim C6: a finalized transcript triggers advancement exactly when
its trimmed, lowercased form equals "next"; the triggered action is the
very `scrollToNextReel` run of a video-end trigger, and any other
utterance produces no action. -/
theorem C6_voice_trigger (d : Dom) (results : List (List SpeechAlt))
    (alts : List SpeechAlt) (alt : SpeechAlt)
    (hlast : results.getLast? = some alts) (hhead : alts.head? = some alt) :
    ((onResultHandler d results).isSome = true ↔
      normalizeCommand alt.transcript = "next") ∧
    (normalizeCommand alt.transcript = "next" →
      onResultHandler d results = some (scrollToNextReel d) ∧
      ∀ v : Video, onResultHandler d results = some (endedHandler d v)) ∧
    (normalizeCommand alt.transcript ≠ "next" →
      onResultHandler d results = none) := by
  have hdef : onResultHandler d results =
      if normalizeCommand alt.transcript = "next" then some (scrollToNextReel d)
      else none := by
    simp [onResultHandler, hlast, hhead]
  by_cases hcmd : normalizeCommand alt.transcript = "next"
  · rw [hdef, if_pos hcmd]
    exact ⟨by simp [hcmd], fun _ => ⟨rfl, fun v => rfl⟩,
      fun hne => absurd hcmd hne⟩
  · rw [hdef, if_neg hcmd]
    exact ⟨by simp [hcmd], fun hc => absurd hc hcmd, fun _ => rfl⟩

/-- Witness for C6: a mixed-case padded "next" triggers the advance run
and "previous" triggers nothing, on a concrete page. -/
theorem C6_witness :
    onResultHandler ⟨[], [], 100⟩ [[⟨" NeXt "⟩]] =
      some (scrollToNextReel ⟨[], [], 100⟩) ∧
    onResultHandler ⟨[], [], 100⟩ [[⟨"previous"⟩]] = none := by
  refine ⟨((C6_voice_trigger ⟨[], [], 100⟩ [[⟨" NeXt "⟩]] [⟨" NeXt "⟩]
      ⟨" NeXt "⟩ rfl rfl).2.1 (by decide)).1, ?_⟩
  exact (C6_voice_trigger ⟨[], [], 100⟩ [[⟨"previous"⟩]] [⟨"previous"⟩]
      ⟨"previous"⟩ rfl rfl).2.2 (by decide)

/-- Claim C7: the wiring function is idempotent: starting from a fresh
video (no marker, no listener), any positive number of calls attaches
exactly one ended listener and sets the marker to "true"; any video with
a truthy marker is left unchanged, so the marker is never cleared. -/
theorem C7_wiring_idempotent (n : Nat) (hn : 1 ≤ n) (s : VideoState)
    (hmarker : s.autoScrollListenerAttached = none)
    (hcount : s.endedListeners = 0) :
    (addListenerToVideo^[n] s).endedListeners = 1 ∧
    (addListenerToVideo^[n] s).autoScrollListenerAttached = some "true" ∧
    (∀ t : VideoState, jsTruthy t.autoScrollListenerAttached = true →
      addListenerToVideo t = t) := by
  obtain ⟨m, rfl⟩ : ∃ m, n = m + 1 := ⟨n - 1, by omega⟩
  rw [Function.iterate_succ_apply]
  have hfirst : addListenerToVideo s = ⟨some "true", 1⟩ := by
    simp [addListenerToVideo, jsTruthy, hmarker, hcount]
  rw [hfirst, addListenerToVideo_iterate_marked m ⟨some "true", 1⟩ (by decide)]
  exact ⟨rfl, rfl, fun t ht => addListenerToVideo_marked t ht⟩

/-- Witness for C7: two calls on a fresh video leave one listener and the
set marker. -/
theorem C7_witness :
    (addListenerToVideo^[2] (⟨none, 0⟩ : VideoState)).endedListeners = 1 ∧
    (addListenerToVideo^[2] (⟨none, 0⟩ : VideoState)).autoScrollListenerAttached =
      some "true" := by
  have h := C7_wiring_idempotent 2 (by decide) ⟨none, 0⟩ rfl rfl
  exact ⟨h.1, h.2.1⟩

/-- Claim C8: the onend handler restarts the session unconditionally; the
onerror handler never restarts, logs a dedicated message for the
"not-allowed" microphone denial, and a different one for every other
error code. -/
theorem C8_restart_policy :
    onEndHandler.restart = true ∧
    (∀ code : String, (onErrorHandler code).restart = false) ∧
    (onErrorHandler "not-allowed").log =
      "Microphone access denied. Voice commands will not work." ∧
    (∀ code : String, code ≠ "not-allowed" →
      (onErrorHandler code).log ≠ (onErrorHandler "not-allowed").log) := by
  refine ⟨rfl, ?_, by decide, ?_⟩
  · intro code
    unfold onErrorHandler
    split <;> rfl
  · intro code hcode
    unfold onErrorHandler
    rw [if_neg hcode, if_pos rfl]
    decide

/-- Witness for C8 at a generic error code. -/
theorem C8_witness :
    (onErrorHandler "network").restart = false ∧
    (onErrorHandler "network").log ≠ (onErrorHandler "not-allowed").log :=
  ⟨C8_restart_policy.2.1 "network",
    C8_restart_policy.2.2.2 "network" (by decide)⟩

/-- Claim C9: without a speech recognition capability, voice setup logs a
single notice and creates no session, while the observer registration
and the initial video wiring still run; and for any environment a
synchronous start exception is caught locally, logged, and never
propagated. -/
theorem C9_capability_absent (env : VoiceEnv) (videos : List VideoState)
    (hunsup : env.speechRecognitionAvailable = false) :
    (initContentScript env videos).voice.sessionCreated = false ∧
    (initContentScript env videos).voice.startAttempted = false ∧
    (initContentScript env videos).voice.logs.length = 1 ∧
    (initContentScript env videos).observerRegistered = true ∧
    (∀ s ∈ videos, addListenerToVideo s ∈
      (initContentScript env videos).wiredVideos) ∧
    (∀ s ∈ videos, s.autoScrollListenerAttached = none →
      (addListenerToVideo s).endedListeners = s.endedListeners + 1) ∧
    (∀ env₂ : VoiceEnv, (setupVoiceCommands env₂).exceptionPropagated = false) ∧
    (∀ env₂ : VoiceEnv, env₂.speechRecognitionAvailable = true →
      env₂.startThrows = true →
      (setupVoiceCommands env₂).logs = ["Could not start voice recognition:"]) := by
  refine ⟨by simp [initContentScript, setupVoiceCommands, hunsup],
    by simp [initContentScript, setupVoiceCommands, hunsup],
    by simp [initContentScript, setupVoiceCommands, hunsup],
    rfl, ?_, ?_, ?_, ?_⟩
  · intro s hs
    exact List.mem_map_of_mem addListenerToVideo hs
  · intro s _ hsm
    simp [addListenerToVideo, jsTruthy, hsm]
  · intro env₂
    rcases env₂ with ⟨avail, thr⟩
    cases avail <;> cases thr <;> rfl
  · intro env₂ hav hthr
    rcases env₂ with ⟨avail, thr⟩
    simp at hav hthr
    subst hav
    subst hthr
    rfl

/-- Witness for C9 in a concrete unsupported environment with one fresh
video, plus the caught start failure in a throwing environment. -/
theorem C9_witness :
    (initContentScript ⟨false, false⟩ [⟨none, 0⟩]).voice.sessionCreated = false ∧
    (initContentScript ⟨false, false⟩ [⟨none, 0⟩]).voice.logs.length = 1 ∧
    (initContentScript ⟨false, false⟩ [⟨none, 0⟩]).observerRegistered = true ∧
    (addListenerToVideo ⟨none, 0⟩).endedListeners = 0 + 1 ∧
    (setupVoiceCommands ⟨true, true⟩).exceptionPropagated = false ∧
    (setupVoiceCommands ⟨true, true⟩).logs =
      ["Could not start voice recognition:"] := by
  have h := C9_capability_absent ⟨false, false⟩ [⟨none, 0⟩] rfl
  exact ⟨h.1, h.2.2.1, h.2.2.2.1, h.2.2.2.2.2.1 ⟨none, 0⟩ (by simp) rfl,
    h.2.2.2.2.2.2.1 ⟨true, true⟩, h.2.2.2.2.2.2.2 ⟨true, true⟩ rfl rfl⟩

end ReelAutoScroll
